import Mathlib

/-!
Shallow embedding of `src/main.go` (package main of infkf/pool-api).

The program is a single HTTP endpoint: `getDataHandler` runs a fixed query
`SELECT id, timestamp, percentage FROM pool_usage ORDER BY timestamp`,
scans each row into a `DataPoint`, and JSON-encodes the collected slice to
the response.  `getDatabasePool` reads `DATABASE_URL` and builds a pgx pool;
`main` exits fatally on pool-init failure, otherwise registers `/pool-data`
and listens on `:8080`.

Modelling decisions, each traced to the source or to the documented
behaviour of the Go standard library calls the source makes:

* `time.Time` is modelled as a UTC calendar instant `GoTime` with
  second precision (the spec's examples use whole-second UTC instants).
  Its JSON form is RFC 3339 (`encoding/json` on `time.Time`), and
  `time.Time.MarshalJSON` errors when the year is outside [0,9999].
* A Go slice is `Option (List a)`: `none` is the nil slice
  (`var dataPoints []DataPoint` at line 56), `some l` a non-nil slice.
  `encoding/json` marshals a nil slice as `null` and a non-nil empty
  slice as `[]`; `append` on nil yields a non-nil slice.
* The `http.ResponseWriter` is `ConnState`: a header map mutable until the
  first write commits the status and snapshots the headers actually sent
  (`sentHeaders`); later `WriteHeader` calls are superfluous no-ops.
  `cap` models how many characters the client connection accepts before
  the write fails (`none` = healthy connection): a short write appends the
  accepted prefix and reports failure, and subsequent writes find no room,
  which is how a broken client connection behaves.
* `http.Error(w, msg, code)` sets `Content-Type: text/plain; charset=utf-8`
  and `X-Content-Type-Options: nosniff`, deletes `Content-Length`, writes
  the status, then writes the message *followed by a newline*
  (`fmt.Fprintln`).
* `json.NewEncoder(w).Encode(v)` marshals fully first (failing without
  writing when marshalling fails) and then writes the JSON text followed
  by a newline.
* The database is an oracle input `QueryOutcome`: either query failure
  (line 48) or a list of per-row scan results in iteration order, each row
  scanning to a `DataPoint` or failing (line 59).
* `os.Getenv` returns `""` both for an absent and for an empty variable,
  so the two cases of claim C7 coincide in `getDatabasePool`'s input.
  Connection-string parsing and pool construction happen outside this
  repository (pgx); they enter `getDatabasePool` as oracle results.
-/

namespace PoolApi

/-- UTC calendar instant, second precision: the model of Go `time.Time`
as used by this program. -/
structure GoTime where
  year : Nat
  month : Nat
  day : Nat
  hour : Nat
  minute : Nat
  second : Nat
deriving DecidableEq, Repr

/-- Chronological key: lexicographic (year, month, day, hour, minute, second)
packed into one `Nat` (field bounds 13/32/24/60/60 exceed the calendar's).
`ORDER BY timestamp` orders rows by this key. -/
def GoTime.key (t : GoTime) : Nat :=
  ((((t.year * 13 + t.month) * 32 + t.day) * 24 + t.hour) * 60 + t.minute) * 60
    + t.second

def pad2 (n : Nat) : String :=
  if n < 10 then "0" ++ toString n else toString n

def pad4 (n : Nat) : String :=
  if n < 10 then "000" ++ toString n
  else if n < 100 then "00" ++ toString n
  else if n < 1000 then "0" ++ toString n
  else toString n

/-- RFC 3339 rendering of a whole-second UTC instant, the text form
`time.Time` marshals to inside `encoding/json`. -/
def GoTime.rfc3339 (t : GoTime) : String :=
  pad4 t.year ++ "-" ++ pad2 t.month ++ "-" ++ pad2 t.day ++ "T" ++
    pad2 t.hour ++ ":" ++ pad2 t.minute ++ ":" ++ pad2 t.second ++ "Z"

/-- `DataPoint` of main.go lines 16-20: struct fields ID, Timestamp,
Percentage with JSON tags id, timestamp, percentage (declaration order). -/
structure DataPoint where
  ID : Int
  Timestamp : GoTime
  Percentage : Int
deriving DecidableEq, Repr

/-- Ordering of data points by ascending timestamp. -/
def tsLe (a b : DataPoint) : Prop :=
  a.Timestamp.key ≤ b.Timestamp.key

instance : DecidableRel tsLe := fun a b =>
  inferInstanceAs (Decidable (a.Timestamp.key ≤ b.Timestamp.key))

/-- A Go slice: `none` is the nil slice, `some l` a non-nil slice holding
`l`.  `encoding/json` distinguishes the two (null vs []). -/
abbrev GoSlice (α : Type) := Option (List α)

/-- Go `append`: appending to a nil slice yields a non-nil slice. -/
def goAppend {α : Type} : GoSlice α → α → GoSlice α
  | none, x => some [x]
  | some l, x => some (l ++ [x])

/-- The non-nil slice a loop of `append`s starting from nil produces:
still nil when no element was appended. -/
def goSliceOfList {α : Type} : List α → GoSlice α
  | [] => none
  | l => some l

/-- JSON text of one `DataPoint` (field order = struct order). -/
def renderDataPoint (dp : DataPoint) : String :=
  "\x7b\"id\":" ++ toString dp.ID ++ ",\"timestamp\":\"" ++
    dp.Timestamp.rfc3339 ++ "\",\"percentage\":" ++ toString dp.Percentage ++
    "\x7d"

/-- `json.Marshal` on one `DataPoint`: `time.Time.MarshalJSON` fails when
the year is outside [0,9999] (year is a `Nat` here, so only the upper
bound can fail). -/
def marshalJSONDataPoint (dp : DataPoint) : Except String String :=
  if dp.Timestamp.year > 9999 then
    Except.error "Time.MarshalJSON: year outside of range [0,9999]"
  else
    Except.ok (renderDataPoint dp)

/-- Total rendering of a slice of data points (`null` for the nil slice),
equal to `marshalDataPoints` whenever no year exceeds 9999. -/
def renderDataPoints : GoSlice DataPoint → String
  | none => "null"
  | some l => "[" ++ String.intercalate "," (l.map renderDataPoint) ++ "]"

/-- `json.Marshal` on the `dataPoints` slice: a nil slice marshals to
`null`, a non-nil slice to a JSON array. -/
def marshalDataPoints : GoSlice DataPoint → Except String String
  | none => Except.ok "null"
  | some l => do
    let parts ← l.mapM marshalJSONDataPoint
    Except.ok ("[" ++ String.intercalate "," parts ++ "]")

/-- Header map operations (`http.Header.Set` replaces, preserving first
insertion position; `Del` removes; `Get` looks up). -/
def setAssoc (k v : String) : List (String × String) → List (String × String)
  | [] => [(k, v)]
  | (k', v') :: rest =>
    if k' = k then (k, v) :: rest else (k', v') :: setAssoc k v rest

def delAssoc (k : String) : List (String × String) → List (String × String)
  | [] => []
  | (k', v') :: rest =>
    if k' = k then delAssoc k rest else (k', v') :: delAssoc k rest

def getAssoc (k : String) : List (String × String) → Option String
  | [] => none
  | (k', v') :: rest => if k' = k then some v' else getAssoc k rest

/-- Take the first `n` characters of a string. -/
def strTake (s : String) (n : Nat) : String :=
  String.mk (s.data.take n)

/-- The connection as the client observes it, plus the server-side header
map.  `cap` is how many body characters the client connection accepts
before writes fail (`none`: healthy connection). -/
structure ConnState where
  cap : Option Nat
  committedStatus : Option Nat
  sentHeaders : List (String × String)
  headers : List (String × String)
  body : String
deriving DecidableEq, Repr

def ConnState.init (cap : Option Nat) : ConnState :=
  ⟨cap, none, [], [], ""⟩

def ConnState.setHeader (w : ConnState) (k v : String) : ConnState :=
  { w with headers := setAssoc k v w.headers }

def ConnState.delHeader (w : ConnState) (k : String) : ConnState :=
  { w with headers := delAssoc k w.headers }

/-- `WriteHeader`: the first call commits the status and snapshots the
headers onto the wire; later calls are superfluous and ignored. -/
def ConnState.writeHeader (w : ConnState) (code : Nat) : ConnState :=
  match w.committedStatus with
  | some _ => w
  | none => { w with committedStatus := some code, sentHeaders := w.headers }

/-- `Write`: an implicit `WriteHeader 200` if none happened yet, then the
body bytes; a connection with too little room takes the prefix it can and
reports failure (`false`). -/
def ConnState.write (w : ConnState) (s : String) : ConnState × Bool :=
  let w := w.writeHeader 200
  match w.cap with
  | none => ({ w with body := w.body ++ s }, true)
  | some c =>
    let room := c - w.body.length
    if s.length ≤ room then ({ w with body := w.body ++ s }, true)
    else ({ w with body := w.body ++ strTake s room }, false)

/-- `http.Error(w, error, code)`: sets plain-text content type and nosniff,
deletes Content-Length, writes the status, then the message followed by a
newline (`fmt.Fprintln`). -/
def httpError (w : ConnState) (error : String) (code : Nat) : ConnState :=
  let w := w.setHeader "Content-Type" "text/plain; charset=utf-8"
  let w := w.setHeader "X-Content-Type-Options" "nosniff"
  let w := w.delHeader "Content-Length"
  let w := w.writeHeader code
  (w.write (error ++ "\n")).1

/-- One row of the result set, as `rows.Scan` sees it: a decoded
`DataPoint` or a scan failure. -/
inductive ScanResult where
  | ok (dp : DataPoint)
  | err
deriving DecidableEq, Repr

/-- Outcome of `pool.Query` at line 47: the query fails, or it returns rows
in iteration order (the store orders them by ascending timestamp). -/
inductive QueryOutcome where
  | failure
  | success (rows : List ScanResult)
deriving DecidableEq, Repr

/-- The incoming HTTP request; the handler body never inspects it. -/
structure Request where
  method : String
deriving DecidableEq, Repr

/-- The scan loop of lines 56-66: start from the nil slice, append each
decoded row, abort on the first scan failure. -/
def collectLoop : List ScanResult → GoSlice DataPoint →
    Except Unit (GoSlice DataPoint)
  | [], acc => Except.ok acc
  | ScanResult.err :: _, _ => Except.error ()
  | ScanResult.ok dp :: rest, acc => collectLoop rest (goAppend acc dp)

/-- `json.NewEncoder(w).Encode(dataPoints)`: marshal first (a marshal
failure writes nothing), then write the JSON text plus a newline. -/
def encodeJSON (w : ConnState) (dataPoints : GoSlice DataPoint) :
    ConnState × Bool :=
  match marshalDataPoints dataPoints with
  | Except.error _ => (w, false)
  | Except.ok s => w.write (s ++ "\n")

/-- `getDataHandler` of lines 43-77, translated statement by statement:
CORS header, query, scan loop, JSON content type, encode; `http.Error`
with the source's message on each failure path. -/
def getDataHandler (r : Request) (q : QueryOutcome) (cap : Option Nat) :
    ConnState :=
  let w := ConnState.init cap
  let w := w.setHeader "Access-Control-Allow-Origin" "*"
  match q with
  | QueryOutcome.failure => httpError w "Failed to query the database" 500
  | QueryOutcome.success rows =>
    match collectLoop rows none with
    | Except.error _ => httpError w "Failed to scan row" 500
    | Except.ok dataPoints =>
      let w := w.setHeader "Content-Type" "application/json"
      match encodeJSON w dataPoints with
      | (w', true) => w'
      | (w', false) => httpError w' "Failed to encode response" 500

/-- Opaque-to-us pgx pool object; the program only threads it through. -/
abbrev Pool := Unit

/-- `getDatabasePool` of lines 23-40.  `dbURL` is what `os.Getenv` returned
(`""` for absent or empty).  Parsing and pool construction live in pgx, so
their results are oracle inputs; the function consults them only in source
order. -/
def getDatabasePool (dbURL : String) (parseResult : Except String Unit)
    (poolResult : Except String Pool) : Except String Pool :=
  if dbURL = "" then
    Except.error "DATABASE_URL environment variable is not set"
  else
    match parseResult with
    | Except.error e => Except.error ("unable to parse DATABASE_URL: " ++ e)
    | Except.ok _ =>
      match poolResult with
      | Except.error e =>
        Except.error ("unable to create connection pool: " ++ e)
      | Except.ok p => Except.ok p

/-- Observable startup actions of `main` (lines 79-96). -/
inductive MainEvent where
  | fatalExit (msg : String)
  | registerRoute (path : String)
  | listen (addr : String)
deriving DecidableEq, Repr

/-- `main`: fatal exit on pool-init failure, otherwise register
`/pool-data` and bind `:8080`. -/
def mainEvents (dbURL : String) (parseResult : Except String Unit)
    (poolResult : Except String Pool) : List MainEvent :=
  match getDatabasePool dbURL parseResult poolResult with
  | Except.error e =>
    [MainEvent.fatalExit ("Error initializing database connection: " ++ e)]
  | Except.ok _ =>
    [MainEvent.registerRoute "/pool-data", MainEvent.listen ":8080"]

/-! ### Helper lemmas -/

theorem foldl_goAppend_some {α : Type} (l : List α) (ds : List α) :
    List.foldl goAppend (some l) ds = some (l ++ ds) := by
  induction ds generalizing l with
  | nil => simp
  | cons d ds ih =>
    simp only [List.foldl_cons, goAppend, ih, List.append_assoc,
      List.singleton_append]

theorem foldl_goAppend_none {α : Type} (ds : List α) :
    List.foldl goAppend none ds = goSliceOfList ds := by
  cases ds with
  | nil => rfl
  | cons d ds =>
    simp only [List.foldl_cons, goAppend, foldl_goAppend_some,
      List.singleton_append]
    rfl

theorem collectLoop_map_ok (dps : List DataPoint) (acc : GoSlice DataPoint) :
    collectLoop (dps.map ScanResult.ok) acc =
      Except.ok (List.foldl goAppend acc dps) := by
  induction dps generalizing acc with
  | nil => rfl
  | cons d ds ih => simp only [List.map_cons, collectLoop, ih, List.foldl_cons]

theorem collectLoop_ok (dps : List DataPoint) :
    collectLoop (dps.map ScanResult.ok) none =
      Except.ok (goSliceOfList dps) := by
  rw [collectLoop_map_ok, foldl_goAppend_none]

theorem collectLoop_scan_err (dps : List DataPoint) (rest : List ScanResult)
    (acc : GoSlice DataPoint) :
    collectLoop (dps.map ScanResult.ok ++ ScanResult.err :: rest) acc =
      Except.error () := by
  induction dps generalizing acc with
  | nil => rfl
  | cons d ds ih =>
    simp only [List.map_cons, List.cons_append, collectLoop, List.append_eq, ih]

theorem mapM_marshal_ok (l : List DataPoint)
    (h : ∀ dp ∈ l, dp.Timestamp.year ≤ 9999) :
    l.mapM marshalJSONDataPoint = Except.ok (l.map renderDataPoint) := by
  induction l with
  | nil => rfl
  | cons d ds ih =>
    have hd : ¬ d.Timestamp.year > 9999 := by
      simpa using h d (List.mem_cons_self d ds)
    have hds := ih (fun dp hdp => h dp (List.mem_cons_of_mem d hdp))
    simp only [List.mapM_cons, marshalJSONDataPoint, if_neg hd, hds,
      List.map_cons]
    rfl

theorem marshalDataPoints_ok (g : GoSlice DataPoint)
    (h : ∀ dp ∈ g.getD [], dp.Timestamp.year ≤ 9999) :
    marshalDataPoints g = Except.ok (renderDataPoints g) := by
  cases g with
  | none => rfl
  | some l =>
    simp only [Option.getD_some] at h
    simp only [marshalDataPoints, mapM_marshal_ok l h, renderDataPoints]
    rfl

/-- Every member of `goSliceOfList l` (as a list) is a member of `l`. -/
theorem goSliceOfList_getD {α : Type} (l : List α) :
    (goSliceOfList l).getD [] = l := by
  cases l <;> rfl

/-- Fully evaluating the success path on a healthy connection: both headers
are sent, status 200, body the JSON text plus a newline. -/
theorem getDataHandler_success (r : Request) (dps : List DataPoint)
    (hy : ∀ dp ∈ dps, dp.Timestamp.year ≤ 9999) :
    getDataHandler r (QueryOutcome.success (dps.map ScanResult.ok)) none =
      ⟨none, some 200,
        [("Access-Control-Allow-Origin", "*"),
          ("Content-Type", "application/json")],
        [("Access-Control-Allow-Origin", "*"),
          ("Content-Type", "application/json")],
        renderDataPoints (goSliceOfList dps) ++ "\n"⟩ := by
  have hy' : ∀ dp ∈ (goSliceOfList dps).getD [], dp.Timestamp.year ≤ 9999 := by
    rw [goSliceOfList_getD]; exact hy
  simp only [getDataHandler, ConnState.init, ConnState.setHeader, setAssoc,
    collectLoop_ok, encodeJSON, marshalDataPoints_ok _ hy',
    ConnState.write, ConnState.writeHeader]
  rfl

/-! ### Concrete data of the spec's end-to-end example -/

/-- Row (1, 2024-01-01T00:00:00Z, 42). -/
def samplePoint1 : DataPoint := ⟨1, ⟨2024, 1, 1, 0, 0, 0⟩, 42⟩

/-- Row (2, 2024-01-01T01:00:00Z, 87). -/
def samplePoint2 : DataPoint := ⟨2, ⟨2024, 1, 1, 1, 0, 0⟩, 87⟩

/-- The body the spec's end-to-end example expects, verbatim. -/
def sampleBody : String :=
  "[\x7b\"id\":1,\"timestamp\":\"2024-01-01T00:00:00Z\",\"percentage\":42\x7d,\x7b\"id\":2,\"timestamp\":\"2024-01-01T01:00:00Z\",\"percentage\":87\x7d]"

/-! ### Claims -/

/-- Claim C1, as stated, is false: on an empty table the collected slice is
still the nil slice of line 56, which `encoding/json` marshals as `null`,
so the body is `null` plus the encoder's newline — not the array `[]`.
The status is 200 as claimed. -/
theorem c1_counterexample :
    (getDataHandler ⟨"GET"⟩ (QueryOutcome.success []) none).committedStatus
        = some 200 ∧
    (getDataHandler ⟨"GET"⟩ (QueryOutcome.success []) none).body = "null\n" ∧
    ((getDataHandler ⟨"GET"⟩ (QueryOutcome.success []) none).body == "[]")
        = false :=
  ⟨rfl, rfl, rfl⟩

/-- Claim C1 amended: for a request served from an empty table the handler
responds 200 with `Content-Type: application/json`, and the body is the
JSON value `null` followed by a newline (the nil slice marshals to `null`),
not the empty array `[]`. -/
theorem c1_empty_table_null (r : Request) :
    getDataHandler r (QueryOutcome.success []) none =
      ⟨none, some 200,
        [("Access-Control-Allow-Origin", "*"),
          ("Content-Type", "application/json")],
        [("Access-Control-Allow-Origin", "*"),
          ("Content-Type", "application/json")],
        "null\n"⟩ :=
  rfl

/-- Claim C3, as stated, is false only in that the body is not *exactly*
"Failed to query the database": `http.Error` terminates the message with a
newline. -/
theorem c3_counterexample :
    (getDataHandler ⟨"GET"⟩ QueryOutcome.failure none).body
        = "Failed to query the database\n" ∧
    ((getDataHandler ⟨"GET"⟩ QueryOutcome.failure none).body
        == "Failed to query the database") = false :=
  ⟨rfl, rfl⟩

/-- Claim C3 amended: on query failure the handler responds 500 with
plain-text body exactly "Failed to query the database" followed by a
newline, emits no JSON (the body is exactly that message and the content
type sent is text/plain), and performs no further processing: the full
response state is the error response, for every request. -/
theorem c3_query_failure_response (r : Request) :
    getDataHandler r QueryOutcome.failure none =
      ⟨none, some 500,
        [("Access-Control-Allow-Origin", "*"),
          ("Content-Type", "text/plain; charset=utf-8"),
          ("X-Content-Type-Options", "nosniff")],
        [("Access-Control-Allow-Origin", "*"),
          ("Content-Type", "text/plain; charset=utf-8"),
          ("X-Content-Type-Options", "nosniff")],
        "Failed to query the database\n"⟩ :=
  rfl

/-- Claim C4, as stated, is false only in that the body is not exactly
"Failed to scan row": `http.Error` terminates the message with a newline.
The already-decoded row (samplePoint1) is discarded, as claimed. -/
theorem c4_counterexample :
    (getDataHandler ⟨"GET"⟩
        (QueryOutcome.success [ScanResult.ok samplePoint1, ScanResult.err])
        none).body = "Failed to scan row\n" ∧
    ((getDataHandler ⟨"GET"⟩
        (QueryOutcome.success [ScanResult.ok samplePoint1, ScanResult.err])
        none).body == "Failed to scan row") = false :=
  ⟨rfl, rfl⟩

/-- Claim C4 amended: whenever some row fails to scan, the handler responds
500 with body "Failed to scan row" followed by a newline; the response is
the same whatever rows were already decoded (partial results discarded)
and whatever rows follow the failing one (processing aborted). -/
theorem c4_scan_failure_response (r : Request) (dps : List DataPoint)
    (rest : List ScanResult) :
    getDataHandler r
        (QueryOutcome.success
          (dps.map ScanResult.ok ++ ScanResult.err :: rest)) none =
      ⟨none, some 500,
        [("Access-Control-Allow-Origin", "*"),
          ("Content-Type", "text/plain; charset=utf-8"),
          ("X-Content-Type-Options", "nosniff")],
        [("Access-Control-Allow-Origin", "*"),
          ("Content-Type", "text/plain; charset=utf-8"),
          ("X-Content-Type-Options", "nosniff")],
        "Failed to scan row\n"⟩ := by
  simp only [getDataHandler, collectLoop_scan_err]
  rfl

/-- Claim C7: with the connection-string variable absent or empty
(`os.Getenv` returns `""` in both cases), `getDatabasePool` fails with the
configuration error of line 26 without consulting the parse or
pool-construction results, and `main` exits fatally: its event trace is a
single fatal exit, with no route registration and no listener binding. -/
theorem c7_missing_connection_string (parseResult : Except String Unit)
    (poolResult : Except String Pool) :
    getDatabasePool "" parseResult poolResult =
      Except.error "DATABASE_URL environment variable is not set" ∧
    mainEvents "" parseResult poolResult =
      [MainEvent.fatalExit
        "Error initializing database connection: DATABASE_URL environment variable is not set"] :=
  ⟨rfl, rfl⟩

/-- Claim C8, as stated, is false only in that the body carries the JSON
encoder's trailing newline after the expected array text. -/
theorem c8_counterexample :
    (getDataHandler ⟨"GET"⟩
        (QueryOutcome.success
          [ScanResult.ok samplePoint1, ScanResult.ok samplePoint2])
        none).body = sampleBody ++ "\n" ∧
    ((getDataHandler ⟨"GET"⟩
        (QueryOutcome.success
          [ScanResult.ok samplePoint1, ScanResult.ok samplePoint2])
        none).body == sampleBody) = false :=
  ⟨rfl, rfl⟩

/-- Claim C8 amended: for the table with exactly the two example rows, a
GET request yields status 200, `Content-Type: application/json`, and body
exactly the claimed JSON array followed by a newline. -/
theorem c8_end_to_end :
    getDataHandler ⟨"GET"⟩
        (QueryOutcome.success
          [ScanResult.ok samplePoint1, ScanResult.ok samplePoint2]) none =
      ⟨none, some 200,
        [("Access-Control-Allow-Origin", "*"),
          ("Content-Type", "application/json")],
        [("Access-Control-Allow-Origin", "*"),
          ("Content-Type", "application/json")],
        sampleBody ++ "\n"⟩ :=
  rfl

/-! ### Further helper lemmas, for the capped-connection and header claims -/

theorem strTake_length (s : String) (n : Nat) :
    (strTake s n).length = min n s.length := by
  rw [strTake, String.length_mk, List.length_take]
  rfl

/-- A first body write on a too-small connection commits status 200 with
the current headers, sends the prefix that fits, and reports failure. -/
theorem strTake_zero (s : String) : strTake s 0 = "" := rfl

theorem write_short_on_empty (c : Nat) (hd : List (String × String))
    (s : String) (h : c < s.length) :
    ConnState.write ⟨some c, none, [], hd, ""⟩ s =
      (⟨some c, some 200, hd, hd, strTake s c⟩, false) := by
  have hneg : ¬ (s.length ≤ c - ("" : String).length) := by
    have h0 : ("" : String).length = 0 := rfl
    omega
  simp only [ConnState.write, ConnState.writeHeader]
  rw [if_neg hneg]
  rfl

/-- A write on a connection whose capacity is already exhausted changes
nothing and fails: this is what `http.Error`'s message write meets after a
failed encode. -/
theorem write_when_full (c code : Nat) (sh hd : List (String × String))
    (b s : String) (hb : b.length = c) (hs : s.length ≠ 0) :
    ConnState.write ⟨some c, some code, sh, hd, b⟩ s =
      (⟨some c, some code, sh, hd, b⟩, false) := by
  simp only [ConnState.write, ConnState.writeHeader]
  rw [hb, Nat.sub_self, if_neg (by omega)]
  simp only [strTake_zero, String.append_empty]

/-- On a healthy connection the handler's status is always 200 or 500,
whatever the query outcome. -/
theorem getDataHandler_status (r : Request) (q : QueryOutcome) :
    (getDataHandler r q none).committedStatus = some 200 ∨
    (getDataHandler r q none).committedStatus = some 500 := by
  cases q with
  | failure => right; rfl
  | success rows =>
    cases h : collectLoop rows none with
    | error e => right; simp only [getDataHandler, h]; rfl
    | ok dataPoints =>
      cases hm : marshalDataPoints dataPoints with
      | error s => right; simp only [getDataHandler, h, encodeJSON, hm]; rfl
      | ok s => left; simp only [getDataHandler, h, encodeJSON, hm]; rfl

/-- Claim C2: when the store returns a non-empty result set sorted by
ascending timestamp (as `ORDER BY timestamp` guarantees), the scan loop
collects exactly those records in iteration order, the body is that
sequence serialized as a JSON array element by element, and the sequence
is sorted by ascending timestamp, ties retaining the store order (the
collected list is the store's list itself). -/
theorem c2_sorted_response (r : Request) (dps : List DataPoint)
    (hne : dps ≠ []) (hsorted : List.Sorted tsLe dps)
    (hy : ∀ dp ∈ dps, dp.Timestamp.year ≤ 9999) :
    collectLoop (dps.map ScanResult.ok) none = Except.ok (some dps) ∧
    (getDataHandler r (QueryOutcome.success (dps.map ScanResult.ok))
        none).body =
      "[" ++ String.intercalate "," (dps.map renderDataPoint) ++ "]"
        ++ "\n" ∧
    List.Sorted tsLe dps := by
  have hsome : goSliceOfList dps = some dps := by
    cases dps with
    | nil => exact absurd rfl hne
    | cons d ds => rfl
  refine ⟨?_, ?_, hsorted⟩
  · rw [collectLoop_ok, hsome]
  · rw [getDataHandler_success r dps hy]
    show renderDataPoints (goSliceOfList dps) ++ "\n" = _
    rw [hsome]
    rfl

/-- Claim C2 witness at the spec's two example rows. -/
theorem c2_witness :
    ([samplePoint1, samplePoint2] ≠ ([] : List DataPoint)) ∧
    List.Sorted tsLe [samplePoint1, samplePoint2] ∧
    (collectLoop ([samplePoint1, samplePoint2].map ScanResult.ok) none =
        Except.ok (some [samplePoint1, samplePoint2]) ∧
      (getDataHandler ⟨"GET"⟩
          (QueryOutcome.success
            ([samplePoint1, samplePoint2].map ScanResult.ok)) none).body =
        "[" ++ String.intercalate ","
            ([samplePoint1, samplePoint2].map renderDataPoint) ++ "]"
          ++ "\n" ∧
      List.Sorted tsLe [samplePoint1, samplePoint2]) :=
  ⟨by decide, by decide,
    c2_sorted_response ⟨"GET"⟩ [samplePoint1, samplePoint2] (by decide)
      (by decide) (by decide)⟩

/-- Claim C5: when the JSON encoder's write fails after it began writing
(the connection accepts fewer characters than the payload), the client
keeps the committed 200 status and the JSON content type, receives exactly
the prefix that fit — a truncated 200 response — and none of the error
text of the subsequent `http.Error` call reaches it: its header mutations
stay server-side and its message write finds no room. -/
theorem c5_encode_write_failure (r : Request) (dps : List DataPoint)
    (c : Nat) (hy : ∀ dp ∈ dps, dp.Timestamp.year ≤ 9999)
    (hc : c < (renderDataPoints (goSliceOfList dps) ++ "\n").length) :
    getDataHandler r (QueryOutcome.success (dps.map ScanResult.ok))
        (some c) =
      ⟨some c, some 200,
        [("Access-Control-Allow-Origin", "*"),
          ("Content-Type", "application/json")],
        [("Access-Control-Allow-Origin", "*"),
          ("Content-Type", "text/plain; charset=utf-8"),
          ("X-Content-Type-Options", "nosniff")],
        strTake (renderDataPoints (goSliceOfList dps) ++ "\n") c⟩ := by
  have hy' : ∀ dp ∈ (goSliceOfList dps).getD [],
      dp.Timestamp.year ≤ 9999 := by
    rw [goSliceOfList_getD]; exact hy
  have htk : (strTake (renderDataPoints (goSliceOfList dps) ++ "\n")
      c).length = c := by
    rw [strTake_length]; omega
  simp only [getDataHandler, ConnState.init, ConnState.setHeader, setAssoc,
    collectLoop_ok, encodeJSON, marshalDataPoints_ok _ hy']
  rw [write_short_on_empty _ _ _ hc]
  simp only [httpError, ConnState.setHeader, setAssoc, ConnState.delHeader,
    delAssoc, ConnState.writeHeader]
  rw [write_when_full _ 200 _ _ _ _ htk (by decide)]
  rfl

/-- Claim C5 witness: one example row, a connection accepting 5 chars. -/
theorem c5_witness :
    (5 < (renderDataPoints (goSliceOfList [samplePoint1]) ++ "\n").length) ∧
    getDataHandler ⟨"GET"⟩
        (QueryOutcome.success ([samplePoint1].map ScanResult.ok))
        (some 5) =
      ⟨some 5, some 200,
        [("Access-Control-Allow-Origin", "*"),
          ("Content-Type", "application/json")],
        [("Access-Control-Allow-Origin", "*"),
          ("Content-Type", "text/plain; charset=utf-8"),
          ("X-Content-Type-Options", "nosniff")],
        strTake (renderDataPoints (goSliceOfList [samplePoint1]) ++ "\n")
          5⟩ :=
  ⟨by decide,
    c5_encode_write_failure ⟨"GET"⟩ [samplePoint1] 5 (by decide) (by decide)⟩

/-- Claim C6: the CORS header `Access-Control-Allow-Origin: *` is sent on
every exit path (query failure, scan failure, marshal failure, success),
while the content type sent is `application/json` on the success path and
`text/plain; charset=utf-8` on the query- and scan-failure paths. -/
theorem c6_headers :
    (∀ (r : Request) (q : QueryOutcome),
      getAssoc "Access-Control-Allow-Origin"
          (getDataHandler r q none).sentHeaders = some "*") ∧
    (∀ r : Request,
      getAssoc "Content-Type"
          (getDataHandler r QueryOutcome.failure none).sentHeaders =
        some "text/plain; charset=utf-8") ∧
    (∀ (r : Request) (dps : List DataPoint) (rest : List ScanResult),
      getAssoc "Content-Type"
          (getDataHandler r
            (QueryOutcome.success
              (dps.map ScanResult.ok ++ ScanResult.err :: rest))
            none).sentHeaders =
        some "text/plain; charset=utf-8") ∧
    (∀ (r : Request) (dps : List DataPoint),
      (∀ dp ∈ dps, dp.Timestamp.year ≤ 9999) →
      getAssoc "Content-Type"
          (getDataHandler r (QueryOutcome.success (dps.map ScanResult.ok))
            none).sentHeaders =
        some "application/json") := by
  refine ⟨?_, ?_, ?_, ?_⟩
  · intro r q
    cases q with
    | failure => rfl
    | success rows =>
      cases h : collectLoop rows none with
      | error e => simp only [getDataHandler, h]; rfl
      | ok dataPoints =>
        cases hm : marshalDataPoints dataPoints with
        | error s => simp only [getDataHandler, h, encodeJSON, hm]; rfl
        | ok s => simp only [getDataHandler, h, encodeJSON, hm]; rfl
  · intro r
    rfl
  · intro r dps rest
    simp only [getDataHandler, collectLoop_scan_err]
    rfl
  · intro r dps hy
    rw [getDataHandler_success r dps hy]
    rfl

/-- Claim C6 witness: headers observed on a failure and on a success. -/
theorem c6_witness :
    getAssoc "Access-Control-Allow-Origin"
        (getDataHandler ⟨"GET"⟩ QueryOutcome.failure none).sentHeaders =
      some "*" ∧
    getAssoc "Content-Type"
        (getDataHandler ⟨"GET"⟩
          (QueryOutcome.success ([samplePoint1].map ScanResult.ok))
          none).sentHeaders =
      some "application/json" :=
  ⟨c6_headers.1 ⟨"GET"⟩ QueryOutcome.failure,
    c6_headers.2.2.2 ⟨"GET"⟩ [samplePoint1] (by decide)⟩

/-- Claim C9: the handler's entire observable response is a function of
the store's result set alone — two invocations for different requests
yield identical responses — and on a stable all-decodable result set over
a healthy connection every invocation is the identical fully-formed JSON
response: status 200 with the complete serialized array as body. -/
theorem c9_deterministic :
    (∀ (r r' : Request) (q : QueryOutcome) (cap : Option Nat),
      getDataHandler r q cap = getDataHandler r' q cap) ∧
    (∀ (r : Request) (dps : List DataPoint),
      (∀ dp ∈ dps, dp.Timestamp.year ≤ 9999) →
      (getDataHandler r (QueryOutcome.success (dps.map ScanResult.ok))
          none).committedStatus = some 200 ∧
      (getDataHandler r (QueryOutcome.success (dps.map ScanResult.ok))
          none).body =
        renderDataPoints (goSliceOfList dps) ++ "\n") := by
  refine ⟨fun r r' q cap => rfl, fun r dps hy => ?_⟩
  rw [getDataHandler_success r dps hy]
  exact ⟨rfl, rfl⟩

/-- Claim C9 witness: two distinct requests against the example rows. -/
theorem c9_witness :
    getDataHandler ⟨"GET"⟩
        (QueryOutcome.success [ScanResult.ok samplePoint2]) (some 3) =
      getDataHandler ⟨"POST"⟩
        (QueryOutcome.success [ScanResult.ok samplePoint2]) (some 3) ∧
    ((getDataHandler ⟨"PUT"⟩
        (QueryOutcome.success ([samplePoint2].map ScanResult.ok))
        none).committedStatus = some 200 ∧
      (getDataHandler ⟨"PUT"⟩
          (QueryOutcome.success ([samplePoint2].map ScanResult.ok))
          none).body =
        renderDataPoints (goSliceOfList [samplePoint2]) ++ "\n") :=
  ⟨c9_deterministic.1 ⟨"GET"⟩ ⟨"POST"⟩ _ _,
    c9_deterministic.2 ⟨"PUT"⟩ [samplePoint2] (by decide)⟩

/-- Claim C10: the handler never inspects the request's HTTP method — for
every method the response is the one a GET gets, on every query outcome
and connection — and no response ever carries status 405. -/
theorem c10_method_ignored :
    (∀ (m : String) (q : QueryOutcome) (cap : Option Nat),
      getDataHandler ⟨m⟩ q cap = getDataHandler ⟨"GET"⟩ q cap) ∧
    (∀ (r : Request) (q : QueryOutcome),
      (getDataHandler r q none).committedStatus ≠ some 405) := by
  refine ⟨fun m q cap => rfl, fun r q => ?_⟩
  rcases getDataHandler_status r q with h | h <;> simp [h]

/-- Claim C10 witness: a DELETE is served exactly like a GET, with a
non-405 status. -/
theorem c10_witness :
    getDataHandler ⟨"DELETE"⟩ QueryOutcome.failure none =
      getDataHandler ⟨"GET"⟩ QueryOutcome.failure none ∧
    (getDataHandler ⟨"DELETE"⟩ QueryOutcome.failure none).committedStatus ≠
      some 405 :=
  ⟨c10_method_ignored.1 "DELETE" QueryOutcome.failure none,
    c10_method_ignored.2 ⟨"DELETE"⟩ QueryOutcome.failure⟩

end PoolApi
